import Mathlib

/-!
# Asteroids simulation core: shallow embedding

This file embeds the in-memory game-state update loop of the asteroids
game script (the most complete of the three near-duplicate variants:
accumulate-and-damp player model, buffered wrap, bounding-sphere
collisions, guarded game-over teardown).

Modelling conventions:
* JavaScript numbers are modelled as `ℚ` (positions, velocities, radii)
  and timestamps as `ℤ` (milliseconds from `Date.now()`).
* Values computed by the external Babylon engine or by `Math.random()`
  (normalized direction vectors, bounding-sphere radii, sampled spawn
  parameters, the host clock) are explicit inputs: the spec treats the
  rendering engine and the clock as external collaborators.
* The global mutable variables (`score`, `lives`, `isGameOver`,
  `playerShip`, `bullets`, `asteroids`, `lastAsteroidSpawnTime`,
  `playerVelocity`, `playerInvincible`, `playerRespawnTime`) become the
  fields of `GameState`.  `playerShip = null` is `Option.none`.
  `lastAsteroidSpawnTime` can be set to `Infinity` by `endGame`, so it
  lives in `WithTop ℤ`.
* `mesh.dispose()` marks an entity; in the script every `dispose()` on a
  list element is immediately followed by `splice`, so disposal of a
  player ship is modelled by setting the `Option` to `none` and disposal
  of a bullet/asteroid by removing it from its list.  The entities still
  carry the `disposed` flag that the collision code tests.
* `gameOverEmitted` and `spawnedCount` are ghost counters: they count how
  often the game-over teardown body ran (the observable GameOver effect)
  and how many asteroids were ever spawned.  No game logic reads them.
-/

namespace Asteroids

/-- 3-component vector over `ℚ`, standing in for `BABYLON.Vector3`. -/
structure Vec3 where
  x : ℚ
  y : ℚ
  z : ℚ
  deriving Repr, DecidableEq

namespace Vec3

def zero : Vec3 := ⟨0, 0, 0⟩

/-- Componentwise addition (`Vector3.add` / `addInPlace`). -/
def add (a b : Vec3) : Vec3 := ⟨a.x + b.x, a.y + b.y, a.z + b.z⟩

/-- Scaling (`Vector3.scale` / `scaleInPlace`). -/
def scale (c : ℚ) (a : Vec3) : Vec3 := ⟨c * a.x, c * a.y, c * a.z⟩

/-- Squared Euclidean length (`Vector3.lengthSquared`). -/
def lengthSq (a : Vec3) : ℚ := a.x * a.x + a.y * a.y + a.z * a.z

/-- Squared distance between two points. -/
def distSq (a b : Vec3) : ℚ := lengthSq ⟨a.x - b.x, a.y - b.y, a.z - b.z⟩

end Vec3

/-! ## Game constants (variant A of the script) -/

def PLAYER_SPEED : ℚ := 0.08
def PLAYER_MAX_SPEED : ℚ := 1.5
def PLAYER_DAMPING : ℚ := 0.98
def PLAYER_ROTATION_SPEED : ℚ := 0.05
def BULLET_SPEED : ℚ := 0.7
def BULLET_LIFETIME : ℤ := 80
def ASTEROID_SPAWN_INTERVAL : ℤ := 1000
def ASTEROID_MAX_COUNT : ℕ := 15
def PLAY_AREA_SIZE : ℚ := 30
def INITIAL_LIVES : ℤ := 3
def RESPAWN_INVINCIBILITY_TIME : ℤ := 3000

/-- `wrapAround`'s limit: `PLAY_AREA_SIZE + buffer` with `buffer = 2`. -/
def WRAP_LIMIT : ℚ := PLAY_AREA_SIZE + 2

/-- `isOutOfBounds`' limit: `PLAY_AREA_SIZE + 10` (bullet-cull margin). -/
def CULL_LIMIT : ℚ := PLAY_AREA_SIZE + 10

/-- Bounding-sphere radius the engine derives for the diameter-0.2 bullet
mesh.  The exact engine value is irrational float math; the simulation
logic only ever compares it, so a fixed positive rational stands in. -/
def BULLET_RADIUS : ℚ := 0.1

/-! ## Entities -/

/-- A bullet: `position`/`velocity` of the mesh plus its
`metadata = { velocity, life, type: "bullet" }`, the engine-computed
bounding-sphere radius, and the `isDisposed()` flag. -/
structure Bullet where
  position : Vec3
  velocity : Vec3
  life : ℤ
  radius : ℚ
  disposed : Bool
  deriving Repr, DecidableEq

/-- An asteroid: mesh `position`/`rotation` plus its
`metadata = { velocity, type: "asteroid", size, rotationSpeed }`, the
engine bounding-sphere radius, and the `isDisposed()` flag. -/
structure Asteroid where
  position : Vec3
  velocity : Vec3
  rotation : Vec3
  size : ℚ
  rotationSpeed : ℚ
  radius : ℚ
  disposed : Bool
  deriving Repr, DecidableEq

/-- The player ship mesh.  Its rotation is always
`(π/2, heading, 0)`: the constant `π/2` pitch is the cone's mesh
orientation, so only the rational yaw `heading` is tracked. -/
structure Ship where
  position : Vec3
  heading : ℚ
  radius : ℚ
  enabled : Bool
  visible : Bool
  deriving Repr, DecidableEq

/-- The module-level mutable state of the game script. -/
structure GameState where
  score : ℕ
  lives : ℤ
  isGameOver : Bool
  playerShip : Option Ship
  bullets : List Bullet
  asteroids : List Asteroid
  lastAsteroidSpawnTime : WithTop ℤ
  playerVelocity : Vec3
  playerInvincible : Bool
  playerRespawnTime : ℤ
  gameOverEmitted : ℕ
  spawnedCount : ℕ
  deriving Repr, DecidableEq

/-- State right after `initializeGame` + `createScene`. -/
def initState : GameState where
  score := 0
  lives := INITIAL_LIVES
  isGameOver := false
  playerShip := some { position := Vec3.zero, heading := 0, radius := 0.4,
                       enabled := true, visible := true }
  bullets := []
  asteroids := []
  lastAsteroidSpawnTime := (0 : ℤ)
  playerVelocity := Vec3.zero
  playerInvincible := false
  playerRespawnTime := 0
  gameOverEmitted := 0
  spawnedCount := 0

/-! ## Bounds policies -/

/-- One axis of `wrapAround`:
`if (c > limit) c = -limit; else if (c < -limit) c = limit;`
with `limit = PLAY_AREA_SIZE + buffer`. -/
def wrapCoord (c : ℚ) : ℚ :=
  if c > WRAP_LIMIT then -WRAP_LIMIT
  else if c < -WRAP_LIMIT then WRAP_LIMIT
  else c

/-- `wrapAround(mesh)`: applied independently to x, y, z. -/
def wrapAround (p : Vec3) : Vec3 := ⟨wrapCoord p.x, wrapCoord p.y, wrapCoord p.z⟩

/-- `isOutOfBounds(position)`:
`|x| > limit || |y| > limit || |z| > limit` with `limit = PLAY_AREA_SIZE + 10`. -/
def isOutOfBounds (p : Vec3) : Bool :=
  |p.x| > CULL_LIMIT || |p.y| > CULL_LIMIT || |p.z| > CULL_LIMIT

/-- Babylon's `BoundingSphere.intersectsSphere`: true when
`r1 + r2 ≥ |p1 - p2|`; stated with squares to stay in `ℚ` (radii are
nonnegative for every entity the game creates). -/
def spheresIntersect (p1 : Vec3) (r1 : ℚ) (p2 : Vec3) (r2 : ℚ) : Bool :=
  Vec3.distSq p1 p2 ≤ (r1 + r2) * (r1 + r2)

/-! ## Game-over teardown -/

/-- `endGame()`: guarded by `if (isGameOver) return;`; sets
`isGameOver = true`, freezes the spawn clock
(`lastAsteroidSpawnTime = Infinity`), disposes the ship and clears both
entity lists.  The ghost counter `gameOverEmitted` records that the
GameOver effect (showing the text, the cleanup) was produced. -/
def endGame (s : GameState) : GameState :=
  if s.isGameOver then s
  else { s with
    isGameOver := true
    lastAsteroidSpawnTime := ⊤
    playerShip := none
    asteroids := []
    bullets := []
    gameOverEmitted := s.gameOverEmitted + 1 }

/-! ## Player hit -/

/-- `playerHit()` at host time `now`: `lives--`, zero the velocity; if
lives remain, reset the ship to the spawn pose and enter the invincible
state with `playerRespawnTime = Date.now()`; otherwise dispose the ship
and run `endGame()`. -/
def playerHit (now : ℤ) (s : GameState) : GameState :=
  let s := { s with lives := s.lives - 1, playerVelocity := Vec3.zero }
  if 0 < s.lives then
    match s.playerShip with
    | some ship =>
        { s with
          playerShip := some { ship with
            position := Vec3.zero, heading := 0,
            visible := false, enabled := false }
          playerVelocity := Vec3.zero
          playerInvincible := true
          playerRespawnTime := now }
    | none => s
  else
    endGame { s with playerShip := none }

/-! ## Firing -/

/-- The bullet `fireBullet` constructs: spawned `0.6` units ahead of the
ship along the engine-computed forward direction `dir`
(`playerShip.forward.scale(-1).normalize()`), with velocity
`dir * BULLET_SPEED` and `life = BULLET_LIFETIME`. -/
def mkBullet (shipPos dir : Vec3) : Bullet where
  position := Vec3.add shipPos (Vec3.scale 0.6 dir)
  velocity := Vec3.scale BULLET_SPEED dir
  life := BULLET_LIFETIME
  radius := BULLET_RADIUS
  disposed := false

/-- `fireBullet()`: no-op unless the ship exists and is enabled
(`if (!playerShip || !playerShip.isEnabled() || !playerShip.getScene()) return;`);
otherwise pushes one new bullet.  `dir` is the engine-computed
normalized forward direction of the ship's current heading. -/
def fireBullet (dir : Vec3) (s : GameState) : GameState :=
  match s.playerShip with
  | none => s
  | some ship =>
      if ship.enabled then
        { s with bullets := s.bullets ++ [mkBullet ship.position dir] }
      else s

/-! ## Per-tick entity updates -/

/-- One bullet's per-tick motion and countdown:
`position.addInPlace(velocity); metadata.life--`. -/
def moveBullet (b : Bullet) : Bullet :=
  { b with position := Vec3.add b.position b.velocity, life := b.life - 1 }

/-- The body of `updateBullets`' reverse-index loop.  Iterating
`i = length-1 … 0` with `splice(i, 1)` touches each element
independently and keeps relative order, so it is this recursion: move
the bullet, decrement `life`, drop it when `life <= 0` or
`isOutOfBounds(position)`. -/
def updateBulletsList : List Bullet → List Bullet
  | [] => []
  | b :: rest =>
      let b' := moveBullet b
      if b'.life ≤ 0 || isOutOfBounds b'.position then updateBulletsList rest
      else b' :: updateBulletsList rest

/-- `updateBullets()`. -/
def updateBullets (s : GameState) : GameState :=
  { s with bullets := updateBulletsList s.bullets }

/-- One asteroid's per-tick motion: integrate the velocity, advance the
rotation (`rotation.x += rotationSpeed * velocity.y` etc.), then wrap. -/
def moveAsteroid (a : Asteroid) : Asteroid :=
  { a with
    position := wrapAround (Vec3.add a.position a.velocity)
    rotation := ⟨a.rotation.x + a.rotationSpeed * a.velocity.y,
                 a.rotation.y + a.rotationSpeed * a.velocity.z,
                 a.rotation.z + a.rotationSpeed * a.velocity.x⟩ }

/-- `updateAsteroids()`: same reverse-index loop shape; no asteroid is
ever removed here (the `!asteroid || !asteroid.metadata` splice guard
never fires for entities the game created). -/
def updateAsteroidsList : List Asteroid → List Asteroid
  | [] => []
  | a :: rest => moveAsteroid a :: updateAsteroidsList rest

/-- `updateAsteroids()`. -/
def updateAsteroids (s : GameState) : GameState :=
  { s with asteroids := updateAsteroidsList s.asteroids }

/-! ## Spawn scheduler -/

/-- The environment-supplied data of one tick: the host clock reading
and, in case a spawn fires, the asteroid sampled by
`createAsteroid`/`setupAsteroid` (size, face position, aimed velocity,
rotation speed — all driven by `Math.random()` and engine vector math —
plus the engine-derived bounding radius).  `unitVel` is the
engine-normalized direction of the damped player velocity, consumed only
when the speed clamp fires. -/
structure Oracle where
  now : ℤ
  spawnPos : Vec3
  spawnVel : Vec3
  spawnSize : ℚ
  spawnRotSpeed : ℚ
  spawnRadius : ℚ
  unitVel : Vec3
  deriving Repr, DecidableEq

/-- The asteroid `setupAsteroid` appends for the sampled data: fresh
mesh (rotation `(0,0,0)`, not disposed). -/
def Oracle.asteroid (o : Oracle) : Asteroid where
  position := o.spawnPos
  velocity := o.spawnVel
  rotation := Vec3.zero
  size := o.spawnSize
  rotationSpeed := o.spawnRotSpeed
  radius := o.spawnRadius
  disposed := false

/-- `spawnAsteroidsIfNeeded()`:
`if (now > lastAsteroidSpawnTime + ASTEROID_SPAWN_INTERVAL
     && asteroids.length < ASTEROID_MAX_COUNT && !isGameOver)`
then `createAsteroid(); lastAsteroidSpawnTime = now`.  With the clock
frozen at `Infinity` the comparison is always false. -/
def spawnAsteroidsIfNeeded (o : Oracle) (s : GameState) : GameState :=
  if s.lastAsteroidSpawnTime + (ASTEROID_SPAWN_INTERVAL : ℤ) < (o.now : WithTop ℤ)
      ∧ s.asteroids.length < ASTEROID_MAX_COUNT ∧ ¬s.isGameOver then
    { s with
      asteroids := s.asteroids ++ [o.asteroid]
      lastAsteroidSpawnTime := (o.now : ℤ)
      spawnedCount := s.spawnedCount + 1 }
  else s

/-! ## Collision resolver

`checkCollisions` iterates both loops by descending index and splices at
the current index, so each loop is a right-to-left recursion: the
recursive call handles the higher indices first and the head last. -/

/-- Inner loop of the bullet phase for one bullet: scan the asteroids by
descending index, skip disposed ones
(`if (!asteroid || asteroid.isDisposed()) continue;`), and on the first
bounding-sphere hit dispose/splice that asteroid and `break`.  Returns
the asteroid list with the hit one removed, or `none` if no hit. -/
def bulletScan (b : Bullet) : List Asteroid → Option (List Asteroid)
  | [] => none
  | a :: rest =>
      match bulletScan b rest with
      | some rest' => some (a :: rest')
      | none =>
          if a.disposed then none
          else if spheresIntersect b.position b.radius a.position a.radius
          then some rest else none

/-- Bullet × asteroid phase.  The script's outer-loop guard is
`if (!bullet || !bullet.isDisposed()) continue; // Check if disposed`:
a bullet is only tested when `isDisposed()` is TRUE, i.e. every live
bullet is skipped (the `!` is inverted relative to the comment, to the
asteroid guard, and to the sibling script variants).  On a hit the
asteroid and the bullet are disposed and spliced and `score += 100`,
then `break`.  Returns (bullets, asteroids, score). -/
def bulletPhase : List Bullet → List Asteroid → ℕ → List Bullet × List Asteroid × ℕ
  | [], asts, sc => ([], asts, sc)
  | b :: rest, asts, sc =>
      let r := bulletPhase rest asts sc
      if !b.disposed then (b :: r.1, r.2.1, r.2.2)
      else
        match bulletScan b r.2.1 with
        | some asts2 => (r.1, asts2, r.2.2 + 100)
        | none => (b :: r.1, r.2.1, r.2.2)

/-- Player × asteroid scan: descending index, skip disposed asteroids,
and on the first bounding-sphere hit against the player's sphere
dispose/splice that asteroid and `break`. -/
def playerScan (pos : Vec3) (r : ℚ) : List Asteroid → Option (List Asteroid)
  | [] => none
  | a :: rest =>
      match playerScan pos r rest with
      | some rest' => some (a :: rest')
      | none =>
          if a.disposed then none
          else if spheresIntersect pos r a.position a.radius
          then some rest else none

/-- `checkCollisions()`: the bullet × asteroid phase, then — only when
the ship exists, is enabled and not invincible — the player × asteroid
phase, which removes the hit asteroid and calls `playerHit()`. -/
def checkCollisions (now : ℤ) (s : GameState) : GameState :=
  let r := bulletPhase s.bullets s.asteroids s.score
  let s := { s with bullets := r.1, asteroids := r.2.1, score := r.2.2 }
  match s.playerShip with
  | some ship =>
      if ship.enabled ∧ ¬s.playerInvincible then
        match playerScan ship.position ship.radius s.asteroids with
        | some asts => playerHit now { s with asteroids := asts }
        | none => s
      else s
  | none => s

/-! ## Invincibility timeout and the tick -/

/-- The invincibility block at the end of `updateGameLogic`:
`if (playerInvincible && playerShip)`, then invincibility ends when
`now > playerRespawnTime + RESPAWN_INVINCIBILITY_TIME` (the ship becomes
visible and enabled again); otherwise the ship flashes:
`isVisible = Math.floor((now - playerRespawnTime) / 150) % 2 === 0`. -/
def invincibilityPhase (now : ℤ) (s : GameState) : GameState :=
  if s.playerInvincible then
    match s.playerShip with
    | some ship =>
        if s.playerRespawnTime + RESPAWN_INVINCIBILITY_TIME < now then
          { s with
            playerInvincible := false
            playerShip := some { ship with visible := true, enabled := true } }
        else
          { s with
            playerShip := some { ship with
              visible := ((now - s.playerRespawnTime).fdiv 150) % 2 == 0 } }
    | none => s
  else s

/-- The player movement block at the start of `updateGameLogic`: when
the ship exists and is enabled, damp the velocity, clamp it to
`PLAYER_MAX_SPEED` by engine normalization (`o.unitVel`) and rescaling,
integrate the position and wrap it. -/
def playerMovePhase (o : Oracle) (s : GameState) : GameState :=
  match s.playerShip with
  | some ship =>
      if ship.enabled then
        let v := Vec3.scale PLAYER_DAMPING s.playerVelocity
        let v := if PLAYER_MAX_SPEED * PLAYER_MAX_SPEED < Vec3.lengthSq v
                 then Vec3.scale PLAYER_MAX_SPEED o.unitVel else v
        { s with
          playerVelocity := v
          playerShip := some { ship with position := wrapAround (Vec3.add ship.position v) } }
      else s
  | none => s

/-- `updateGameLogic()`, the per-frame tick: early return on
`isGameOver`, then player movement → `updateBullets` →
`updateAsteroids` → `spawnAsteroidsIfNeeded` → `checkCollisions` →
(`endGame` when `lives <= 0 && !isGameOver`) → invincibility timeout. -/
def updateGameLogic (o : Oracle) (s : GameState) : GameState :=
  if s.isGameOver then s
  else
    let s := playerMovePhase o s
    let s := updateBullets s
    let s := updateAsteroids s
    let s := spawnAsteroidsIfNeeded o s
    let s := checkCollisions o.now s
    let s := if s.lives ≤ 0 ∧ ¬s.isGameOver then endGame s else s
    invincibilityPhase o.now s

/-! ## Session traces -/

/-- The thumbstick input handler: guarded by
`if (isGameOver || !playerShip || !playerShip.isEnabled()) return;`;
yaw by `±PLAYER_ROTATION_SPEED` on the x axis, and on forward push
accumulate thrust `fwd * (-axesY * PLAYER_SPEED)` into the velocity
(`fwd` is the engine-computed forward direction). -/
def controlInput (axesX axesY : ℚ) (fwd : Vec3) (s : GameState) : GameState :=
  if s.isGameOver then s
  else match s.playerShip with
  | none => s
  | some ship =>
      if ship.enabled then
        let h := if axesX < -0.1 then ship.heading - PLAYER_ROTATION_SPEED
                 else if axesX > 0.1 then ship.heading + PLAYER_ROTATION_SPEED
                 else ship.heading
        let s := { s with playerShip := some { ship with heading := h } }
        if axesY < -0.1 then
          { s with playerVelocity :=
              Vec3.add s.playerVelocity (Vec3.scale (-axesY * PLAYER_SPEED) fwd) }
        else s
      else s

/-- The events the host can feed the simulation: a rendered frame
(tick), a trigger pull (fire), a thumbstick sample. -/
inductive Op where
  | tick (o : Oracle)
  | fire (dir : Vec3)
  | control (axesX axesY : ℚ) (fwd : Vec3)
  deriving Repr

/-- Apply one host event. -/
def applyOp : Op → GameState → GameState
  | Op.tick o, s => updateGameLogic o s
  | Op.fire dir, s => fireBullet dir s
  | Op.control ax ay fwd, s => controlInput ax ay fwd s

/-- Run a list of host events in order. -/
def run (ops : List Op) (s : GameState) : GameState :=
  ops.foldl (fun st op => applyOp op st) s

/-- The states a session can reach from the initial state. -/
inductive Reachable : GameState → Prop
  | init : Reachable initState
  | step {s : GameState} (op : Op) : Reachable s → Reachable (applyOp op s)

/-! ## Derived per-bullet step and concrete scenario states -/

/-- What one `updateBullets` iteration does to a single bullet: move it,
decrement `life`, and cull it when `life ≤ 0` or out of bounds. -/
def bulletStep (b : Bullet) : Option Bullet :=
  let b' := moveBullet b
  if b'.life ≤ 0 || isOutOfBounds b'.position then none else some b'

/-- A live (non-disposed) bullet sitting at the origin. -/
def liveBullet : Bullet where
  position := Vec3.zero
  velocity := Vec3.zero
  life := 60
  radius := BULLET_RADIUS
  disposed := false

/-- A live asteroid also at the origin: its bounding sphere strictly
overlaps `liveBullet`'s. -/
def overlapAsteroid : Asteroid where
  position := Vec3.zero
  velocity := Vec3.zero
  rotation := Vec3.zero
  size := 1
  rotationSpeed := 0
  radius := 1
  disposed := false

/-- A state in which `liveBullet` overlaps `overlapAsteroid` while the
player ship sits far away at `(20,0,0)`. -/
def overlapState : GameState :=
  { initState with
    bullets := [liveBullet]
    asteroids := [overlapAsteroid]
    playerShip :=
      some { position := ⟨20, 0, 0⟩, heading := 0, radius := 1, enabled := true, visible := true } }

/-- A player two ticks after being hit at time `0`: invincible, ship
hidden and disabled, `playerRespawnTime = 0`, so
`invincibleUntil = 0 + RESPAWN_INVINCIBILITY_TIME = 3000`.  The spawn
clock is set so no spawn interferes at time `3000`. -/
def invincibleState : GameState :=
  { initState with
    lives := 2
    playerShip := some { position := Vec3.zero, heading := 0, radius := 0.4,
                         enabled := false, visible := false }
    playerInvincible := true
    playerRespawnTime := 0
    lastAsteroidSpawnTime := (3000 : ℤ) }

/-- A tick of the host clock at time `3000 = invincibleUntil` for
`invincibleState` (spawn data arbitrary; no spawn fires). -/
def boundaryOracle : Oracle where
  now := 3000
  spawnPos := Vec3.zero
  spawnVel := Vec3.zero
  spawnSize := 1
  spawnRotSpeed := 0
  spawnRadius := 1
  unitVel := Vec3.zero

/-! ## Helper lemmas

Frame and bound lemmas about the individual phases, shared by the
claim theorems below. -/

theorem updateAsteroidsList_length (l : List Asteroid) :
    (updateAsteroidsList l).length = l.length := by
  induction l with
  | nil => rfl
  | cons a rest ih => simp [updateAsteroidsList, ih]

theorem bulletScan_length {b : Bullet} :
    ∀ {l l' : List Asteroid}, bulletScan b l = some l' → l'.length + 1 = l.length := by
  intro l
  induction l with
  | nil => intro l' h; simp [bulletScan] at h
  | cons a rest ih =>
      intro l' h
      rw [bulletScan] at h
      cases hr : bulletScan b rest with
      | some rest' =>
          rw [hr] at h
          dsimp only at h
          cases h
          simp [ih hr]
      | none =>
          rw [hr] at h
          dsimp only at h
          split_ifs at h <;> simp_all

theorem playerScan_length {pos : Vec3} {r : ℚ} :
    ∀ {l l' : List Asteroid}, playerScan pos r l = some l' → l'.length + 1 = l.length := by
  intro l
  induction l with
  | nil => intro l' h; simp [playerScan] at h
  | cons a rest ih =>
      intro l' h
      rw [playerScan] at h
      cases hr : playerScan pos r rest with
      | some rest' =>
          rw [hr] at h
          dsimp only at h
          cases h
          simp [ih hr]
      | none =>
          rw [hr] at h
          dsimp only at h
          split_ifs at h <;> simp_all

theorem bulletPhase_asteroids_le (bs : List Bullet) (asts : List Asteroid) (sc : ℕ) :
    (bulletPhase bs asts sc).2.1.length ≤ asts.length := by
  induction bs with
  | nil => simp [bulletPhase]
  | cons b rest ih =>
      rw [bulletPhase]
      split
      · exact ih
      · cases hs : bulletScan b (bulletPhase rest asts sc).2.1 with
        | some asts2 =>
            simp only [hs]
            have := bulletScan_length hs
            omega
        | none => simpa [hs] using ih

theorem bulletPhase_score (bs : List Bullet) (asts : List Asteroid) (sc : ℕ) :
    ∃ k, (bulletPhase bs asts sc).2.2 = sc + 100 * k := by
  induction bs with
  | nil => exact ⟨0, rfl⟩
  | cons b rest ih =>
      obtain ⟨k, hk⟩ := ih
      rw [bulletPhase]
      split
      · exact ⟨k, hk⟩
      · cases hs : bulletScan b (bulletPhase rest asts sc).2.1 with
        | some asts2 =>
            refine ⟨k + 1, ?_⟩
            simp only [hs, hk]
            ring
        | none => exact ⟨k, by simpa [hs] using hk⟩

theorem endGame_score (s : GameState) : (endGame s).score = s.score := by
  unfold endGame; split <;> rfl

theorem endGame_lives (s : GameState) : (endGame s).lives = s.lives := by
  unfold endGame; split <;> rfl

theorem endGame_asteroids_le (s : GameState) :
    (endGame s).asteroids.length ≤ s.asteroids.length := by
  unfold endGame; split <;> simp

theorem playerHit_score (now : ℤ) (s : GameState) :
    (playerHit now s).score = s.score := by
  unfold playerHit
  dsimp only
  split
  · split <;> rfl
  · rw [endGame_score]

theorem playerHit_asteroids_le (now : ℤ) (s : GameState) :
    (playerHit now s).asteroids.length ≤ s.asteroids.length := by
  unfold playerHit
  dsimp only
  split
  · split <;> simp
  · refine le_trans (endGame_asteroids_le _) ?_; simp

theorem checkCollisions_asteroids_le (now : ℤ) (s : GameState) :
    (checkCollisions now s).asteroids.length ≤ s.asteroids.length := by
  unfold checkCollisions
  have hb := bulletPhase_asteroids_le s.bullets s.asteroids s.score
  cases hship : s.playerShip with
  | none => simpa using hb
  | some ship =>
      simp only
      split
      · cases hscan : playerScan ship.position ship.radius
            (bulletPhase s.bullets s.asteroids s.score).2.1 with
        | some asts =>
            simp only [hscan]
            refine le_trans (playerHit_asteroids_le now _) ?_
            have h1 := playerScan_length hscan
            dsimp only
            omega
        | none => simpa [hscan] using hb
      · simpa using hb

theorem checkCollisions_score (now : ℤ) (s : GameState) :
    ∃ k, (checkCollisions now s).score = s.score + 100 * k := by
  unfold checkCollisions
  obtain ⟨k, hk⟩ := bulletPhase_score s.bullets s.asteroids s.score
  cases hship : s.playerShip with
  | none => exact ⟨k, by simpa using hk⟩
  | some ship =>
      simp only
      split
      · cases hscan : playerScan ship.position ship.radius
            (bulletPhase s.bullets s.asteroids s.score).2.1 with
        | some asts => exact ⟨k, by simp only [hscan]; rw [playerHit_score]; exact hk⟩
        | none => exact ⟨k, by simpa [hscan] using hk⟩
      · exact ⟨k, by simpa using hk⟩

theorem playerMovePhase_frame (o : Oracle) (s : GameState) :
    (playerMovePhase o s).asteroids = s.asteroids ∧
    (playerMovePhase o s).bullets = s.bullets ∧
    (playerMovePhase o s).score = s.score ∧
    (playerMovePhase o s).isGameOver = s.isGameOver ∧
    (playerMovePhase o s).lives = s.lives ∧
    (playerMovePhase o s).spawnedCount = s.spawnedCount := by
  unfold playerMovePhase
  cases s.playerShip <;> simp <;> split <;> simp

theorem invincibilityPhase_frame (now : ℤ) (s : GameState) :
    (invincibilityPhase now s).asteroids = s.asteroids ∧
    (invincibilityPhase now s).score = s.score ∧
    (invincibilityPhase now s).isGameOver = s.isGameOver ∧
    (invincibilityPhase now s).spawnedCount = s.spawnedCount := by
  unfold invincibilityPhase
  split
  · cases s.playerShip <;> simp <;> split <;> simp
  · simp

theorem spawnAsteroidsIfNeeded_le (o : Oracle) (s : GameState)
    (h : s.asteroids.length ≤ ASTEROID_MAX_COUNT) :
    (spawnAsteroidsIfNeeded o s).asteroids.length ≤ ASTEROID_MAX_COUNT := by
  unfold spawnAsteroidsIfNeeded
  split
  · rename_i hc
    simp only [List.length_append, List.length_singleton]
    omega
  · exact h

theorem spawnAsteroidsIfNeeded_score (o : Oracle) (s : GameState) :
    (spawnAsteroidsIfNeeded o s).score = s.score := by
  unfold spawnAsteroidsIfNeeded; split <;> rfl

theorem fireBullet_frame (dir : Vec3) (s : GameState) :
    (fireBullet dir s).asteroids = s.asteroids ∧
    (fireBullet dir s).score = s.score ∧
    (fireBullet dir s).isGameOver = s.isGameOver ∧
    (fireBullet dir s).spawnedCount = s.spawnedCount := by
  unfold fireBullet
  cases s.playerShip <;> simp <;> split <;> simp

theorem controlInput_frame (ax ay : ℚ) (fwd : Vec3) (s : GameState) :
    (controlInput ax ay fwd s).asteroids = s.asteroids ∧
    (controlInput ax ay fwd s).score = s.score ∧
    (controlInput ax ay fwd s).isGameOver = s.isGameOver ∧
    (controlInput ax ay fwd s).spawnedCount = s.spawnedCount := by
  unfold controlInput
  split
  · simp
  · cases s.playerShip with
    | none => simp
    | some ship => simp only; split <;> [split <;> simp; simp]

theorem updateGameLogic_of_gameOver (o : Oracle) {s : GameState}
    (h : s.isGameOver = true) : updateGameLogic o s = s := by
  unfold updateGameLogic; rw [h]; rfl

theorem updateGameLogic_asteroids_le (o : Oracle) (s : GameState)
    (h : s.asteroids.length ≤ ASTEROID_MAX_COUNT) :
    (updateGameLogic o s).asteroids.length ≤ ASTEROID_MAX_COUNT := by
  unfold updateGameLogic
  split
  · exact h
  · dsimp only
    have h1 : (updateAsteroids (updateBullets (playerMovePhase o s))).asteroids.length
        ≤ ASTEROID_MAX_COUNT := by
      show (updateAsteroidsList (updateBullets (playerMovePhase o s)).asteroids).length
          ≤ ASTEROID_MAX_COUNT
      rw [updateAsteroidsList_length]
      show (playerMovePhase o s).asteroids.length ≤ ASTEROID_MAX_COUNT
      rw [(playerMovePhase_frame o s).1]
      exact h
    have h2 := spawnAsteroidsIfNeeded_le o _ h1
    have h3 := checkCollisions_asteroids_le o.now
      (spawnAsteroidsIfNeeded o (updateAsteroids (updateBullets (playerMovePhase o s))))
    rw [(invincibilityPhase_frame _ _).1]
    split
    · exact le_trans (endGame_asteroids_le _) (le_trans h3 h2)
    · exact le_trans h3 h2

theorem updateGameLogic_score (o : Oracle) (s : GameState) :
    ∃ k, (updateGameLogic o s).score = s.score + 100 * k := by
  unfold updateGameLogic
  split
  · exact ⟨0, rfl⟩
  · dsimp only
    have hpre : (updateAsteroids (updateBullets (playerMovePhase o s))).score = s.score :=
      (playerMovePhase_frame o s).2.2.1
    obtain ⟨k, hk⟩ := checkCollisions_score o.now
      (spawnAsteroidsIfNeeded o (updateAsteroids (updateBullets (playerMovePhase o s))))
    refine ⟨k, ?_⟩
    rw [(invincibilityPhase_frame _ _).2.1]
    split
    · rw [endGame_score, hk, spawnAsteroidsIfNeeded_score, hpre]
    · rw [hk, spawnAsteroidsIfNeeded_score, hpre]

theorem applyOp_score (op : Op) (s : GameState) :
    ∃ k, (applyOp op s).score = s.score + 100 * k := by
  cases op with
  | tick o => exact updateGameLogic_score o s
  | fire dir =>
      refine ⟨0, ?_⟩
      show (fireBullet dir s).score = s.score + 100 * 0
      rw [(fireBullet_frame dir s).2.1]; ring
  | control ax ay fwd =>
      refine ⟨0, ?_⟩
      show (controlInput ax ay fwd s).score = s.score + 100 * 0
      rw [(controlInput_frame ax ay fwd s).2.1]; ring

/-! ## Claim theorems -/

/-- C3: for every reachable state the number of live asteroids never
exceeds `maxAsteroids = 15`: the spawn scheduler adds at most one
asteroid per tick and only when the count is strictly below the cap,
and no other operation grows the asteroid list. -/
theorem asteroid_count_le_max (s : GameState) (h : Reachable s) :
    s.asteroids.length ≤ 15 := by
  induction h with
  | init => simp [initState]
  | step op hr ih =>
      cases op with
      | tick o => exact updateGameLogic_asteroids_le o _ ih
      | fire dir =>
          show (fireBullet dir _).asteroids.length ≤ 15
          rw [(fireBullet_frame dir _).1]
          exact ih
      | control ax ay fwd =>
          show (controlInput ax ay fwd _).asteroids.length ≤ 15
          rw [(controlInput_frame ax ay fwd _).1]
          exact ih

/-- C3 witness: the invariant holds at the initial state. -/
theorem asteroid_count_le_max_witness : initState.asteroids.length ≤ 15 :=
  asteroid_count_le_max initState Reachable.init

/-- C10: the score starts at 0, is always a multiple of 100 (the only
mutation adds exactly 100 per destroyed bullet–asteroid pair), and is
monotone: no operation ever decreases it. -/
theorem score_multiple_of_100_and_monotone (s : GameState) (h : Reachable s) :
    100 ∣ s.score ∧ ∀ op : Op, s.score ≤ (applyOp op s).score := by
  have mono : ∀ (op : Op) (t : GameState), t.score ≤ (applyOp op t).score := by
    intro op t
    obtain ⟨k, hk⟩ := applyOp_score op t
    omega
  induction h with
  | init => exact ⟨⟨0, rfl⟩, fun op => mono op initState⟩
  | step op hr ih =>
      refine ⟨?_, fun op2 => mono op2 _⟩
      obtain ⟨k, hk⟩ := applyOp_score op _
      rw [hk]
      exact dvd_add ih.1 (Dvd.intro k rfl)

/-- C10 witness: at the initial state the score is a multiple of 100 and
no operation decreases it. -/
theorem score_multiple_of_100_and_monotone_witness :
    100 ∣ initState.score ∧ ∀ op : Op, initState.score ≤ (applyOp op initState).score :=
  score_multiple_of_100_and_monotone initState Reachable.init

/-- C7: once `isGameOver` holds, no asteroid is ever spawned again: every
later tick is a no-op (and `fire`/input never touch asteroids), so the
spawn counter and the asteroid list stay frozen and `isGameOver` stays
true for the rest of the session. -/
theorem no_spawn_after_gameover (s : GameState) (ops : List Op)
    (h : s.isGameOver = true) :
    (run ops s).spawnedCount = s.spawnedCount ∧
    (run ops s).asteroids = s.asteroids ∧
    (run ops s).isGameOver = true := by
  induction ops generalizing s with
  | nil => exact ⟨rfl, rfl, h⟩
  | cons op rest ih =>
      have hrun : run (op :: rest) s = run rest (applyOp op s) := rfl
      cases op with
      | tick o =>
          rw [hrun, show applyOp (Op.tick o) s = s from updateGameLogic_of_gameOver o h]
          exact ih s h
      | fire dir =>
          have hf := fireBullet_frame dir s
          have hstep := ih (fireBullet dir s) (by rw [hf.2.2.1]; exact h)
          have happ : applyOp (Op.fire dir) s = fireBullet dir s := rfl
          rw [hrun, happ]
          exact ⟨by rw [hstep.1, hf.2.2.2], by rw [hstep.2.1, hf.1], hstep.2.2⟩
      | control ax ay fwd =>
          have hf := controlInput_frame ax ay fwd s
          have hstep := ih (controlInput ax ay fwd s) (by rw [hf.2.2.1]; exact h)
          have happ : applyOp (Op.control ax ay fwd) s = controlInput ax ay fwd s := rfl
          rw [hrun, happ]
          exact ⟨by rw [hstep.1, hf.2.2.2], by rw [hstep.2.1, hf.1], hstep.2.2⟩

/-- C7 witness: after tearing down the initial state, a further tick and
a trigger pull spawn nothing and leave the game over. -/
theorem no_spawn_after_gameover_witness :
    (run [Op.tick boundaryOracle, Op.fire ⟨0, 0, 1⟩] (endGame initState)).spawnedCount
        = (endGame initState).spawnedCount ∧
    (run [Op.tick boundaryOracle, Op.fire ⟨0, 0, 1⟩] (endGame initState)).asteroids
        = (endGame initState).asteroids ∧
    (run [Op.tick boundaryOracle, Op.fire ⟨0, 0, 1⟩] (endGame initState)).isGameOver = true :=
  no_spawn_after_gameover (endGame initState) [Op.tick boundaryOracle, Op.fire ⟨0, 0, 1⟩] rfl

theorem wrapCoord_high {c : ℚ} (h : WRAP_LIMIT < c) : wrapCoord c = -WRAP_LIMIT := by
  unfold wrapCoord
  rw [if_pos h]

theorem wrapCoord_low {c : ℚ} (h : c < -WRAP_LIMIT) : wrapCoord c = WRAP_LIMIT := by
  have hL : (0 : ℚ) ≤ WRAP_LIMIT := by norm_num [WRAP_LIMIT, PLAY_AREA_SIZE]
  have h2 : ¬ c > WRAP_LIMIT := by intro hc; linarith
  unfold wrapCoord
  rw [if_neg h2, if_pos h]

/-- C2: one application of the wrap policy teleports: a coordinate past
`+halfExtent` (the wrap limit `PLAY_AREA_SIZE + buffer = 32`) by any
`ε > 0` lands exactly on `-halfExtent`, and symmetrically, on every
axis — a teleport, not a reflection. -/
theorem wrap_teleports (p : Vec3) (ε : ℚ) (hε : 0 < ε) :
    (p.x = WRAP_LIMIT + ε → (wrapAround p).x = -WRAP_LIMIT) ∧
    (p.x = -(WRAP_LIMIT + ε) → (wrapAround p).x = WRAP_LIMIT) ∧
    (p.y = WRAP_LIMIT + ε → (wrapAround p).y = -WRAP_LIMIT) ∧
    (p.y = -(WRAP_LIMIT + ε) → (wrapAround p).y = WRAP_LIMIT) ∧
    (p.z = WRAP_LIMIT + ε → (wrapAround p).z = -WRAP_LIMIT) ∧
    (p.z = -(WRAP_LIMIT + ε) → (wrapAround p).z = WRAP_LIMIT) := by
  refine ⟨fun h => ?_, fun h => ?_, fun h => ?_, fun h => ?_, fun h => ?_, fun h => ?_⟩
  · show wrapCoord p.x = -WRAP_LIMIT
    rw [h]; exact wrapCoord_high (by linarith)
  · show wrapCoord p.x = WRAP_LIMIT
    rw [h]; exact wrapCoord_low (by linarith)
  · show wrapCoord p.y = -WRAP_LIMIT
    rw [h]; exact wrapCoord_high (by linarith)
  · show wrapCoord p.y = WRAP_LIMIT
    rw [h]; exact wrapCoord_low (by linarith)
  · show wrapCoord p.z = -WRAP_LIMIT
    rw [h]; exact wrapCoord_high (by linarith)
  · show wrapCoord p.z = WRAP_LIMIT
    rw [h]; exact wrapCoord_low (by linarith)

/-- C2 witness: the point `(33, -33, 5)` (i.e. `x = halfExtent + 1`,
`y = -(halfExtent + 1)`) wraps to `x = -32`, `y = 32`. -/
theorem wrap_teleports_witness :
    (wrapAround ⟨33, -33, 5⟩).x = -WRAP_LIMIT ∧
    (wrapAround ⟨33, -33, 5⟩).y = WRAP_LIMIT :=
  ⟨(wrap_teleports ⟨33, -33, 5⟩ 1 (by norm_num)).1
      (by norm_num [WRAP_LIMIT, PLAY_AREA_SIZE]),
   (wrap_teleports ⟨33, -33, 5⟩ 1 (by norm_num)).2.2.2.1
      (by norm_num [WRAP_LIMIT, PLAY_AREA_SIZE])⟩

/-- C6: the game-over teardown is idempotent: running `endGame` on a
state where it already ran returns that state unchanged (the
`if (isGameOver) return;` guard fires), so score, lives, the flag and
the emptied entity lists are identical. -/
theorem endGame_idempotent (s : GameState) : endGame (endGame s) = endGame s := by
  by_cases h : s.isGameOver = true <;> simp [endGame, h]

/-- C8: `fireBullet` is a total no-op whenever the ship is absent (Dead)
or disabled (Invincible): no bullet, no error, state unchanged; with a
live enabled ship it appends exactly one bullet built from the current
position and heading direction, touching nothing else. -/
theorem fireBullet_spec (s : GameState) (dir : Vec3) :
    ((s.playerShip = none ∨ ∃ ship, s.playerShip = some ship ∧ ship.enabled = false) →
      fireBullet dir s = s) ∧
    (∀ ship, s.playerShip = some ship → ship.enabled = true →
      fireBullet dir s = { s with bullets := s.bullets ++ [mkBullet ship.position dir] }) := by
  constructor
  · rintro (h | ⟨ship, hs, he⟩)
    · unfold fireBullet; rw [h]
    · unfold fireBullet; rw [hs]; simp [he]
  · intro ship hs he
    unfold fireBullet; rw [hs]; simp [he]

/-- C8 witness: firing after game over (ship disposed) changes nothing;
firing at the initial state appends exactly one bullet. -/
theorem fireBullet_spec_witness :
    fireBullet ⟨0, 0, 1⟩ (endGame initState) = endGame initState ∧
    fireBullet ⟨0, 0, 1⟩ initState =
      { initState with bullets := initState.bullets ++ [mkBullet Vec3.zero ⟨0, 0, 1⟩] } :=
  ⟨(fireBullet_spec (endGame initState) ⟨0, 0, 1⟩).1 (Or.inl rfl),
   (fireBullet_spec initState ⟨0, 0, 1⟩).2 _ rfl rfl⟩

theorem updateBulletsList_eq_filterMap (l : List Bullet) :
    updateBulletsList l = l.filterMap bulletStep := by
  induction l with
  | nil => rfl
  | cons b rest ih =>
      by_cases hc : ((moveBullet b).life ≤ 0 || isOutOfBounds (moveBullet b).position) = true <;>
        simp [updateBulletsList, bulletStep, hc, ih]

/-- C9: each tick maps the bullet list through a per-bullet step that
moves the bullet and decrements `remainingLife` by exactly one; a bullet
whose life was ≤ 1 is culled regardless of position, and a bullet with
life > 1 that stays in bounds survives with life decremented. -/
theorem updateBullets_cull :
    (∀ s : GameState, (updateBullets s).bullets = s.bullets.filterMap bulletStep) ∧
    (∀ b b' : Bullet, bulletStep b = some b' → b'.life = b.life - 1) ∧
    (∀ b : Bullet, b.life ≤ 1 → bulletStep b = none) ∧
    (∀ b : Bullet, 1 < b.life → isOutOfBounds (moveBullet b).position = false →
      bulletStep b = some (moveBullet b)) := by
  refine ⟨fun s => updateBulletsList_eq_filterMap s.bullets, ?_, ?_, ?_⟩
  · intro b b' h
    unfold bulletStep at h
    dsimp only at h
    split_ifs at h
    cases h
    rfl
  · intro b h
    have h0 : (moveBullet b).life ≤ 0 := by simp only [moveBullet]; omega
    simp [bulletStep, h0]
  · intro b h1 h2
    have h0 : ¬ (moveBullet b).life ≤ 0 := by simp only [moveBullet]; omega
    simp [bulletStep, h0, h2]

/-- C9 witness: a stationary in-bounds bullet with `life = 1` is culled
by the next tick; with `life = 5` it survives with `life = 4`. -/
theorem updateBullets_cull_witness :
    bulletStep { position := Vec3.zero, velocity := Vec3.zero, life := 1,
                 radius := BULLET_RADIUS, disposed := false } = none ∧
    bulletStep { position := Vec3.zero, velocity := Vec3.zero, life := 5,
                 radius := BULLET_RADIUS, disposed := false } =
      some (moveBullet { position := Vec3.zero, velocity := Vec3.zero, life := 5,
                         radius := BULLET_RADIUS, disposed := false }) :=
  ⟨updateBullets_cull.2.2.1 _ (by norm_num),
   updateBullets_cull.2.2.2 _ (by norm_num)
      (by norm_num [isOutOfBounds, moveBullet, Vec3.add, Vec3.zero, CULL_LIMIT, PLAY_AREA_SIZE])⟩

/-- C5: from `lives = 3`, each hit decrements lives by one, zeroes the
velocity and resets the surviving ship to the spawn pose
(position `(0,0,0)`, heading `0`); the third hit disposes the ship
(Dead), raises game over and emits the GameOver effect exactly once. -/
theorem three_hits_dead_gameover_once (s : GameState) (ship : Ship) (n1 n2 n3 : ℤ)
    (hship : s.playerShip = some ship) (hlives : s.lives = 3)
    (hgo : s.isGameOver = false) (hem : s.gameOverEmitted = 0) :
    ((playerHit n1 s).lives = 2 ∧
     (playerHit n1 s).playerVelocity = Vec3.zero ∧
     (playerHit n1 s).playerShip =
       some { ship with position := Vec3.zero, heading := 0, visible := false, enabled := false } ∧
     (playerHit n1 s).playerInvincible = true ∧
     (playerHit n1 s).playerRespawnTime = n1) ∧
    ((playerHit n2 (playerHit n1 s)).lives = 1 ∧
     (playerHit n2 (playerHit n1 s)).playerVelocity = Vec3.zero) ∧
    ((playerHit n3 (playerHit n2 (playerHit n1 s))).lives = 0 ∧
     (playerHit n3 (playerHit n2 (playerHit n1 s))).playerShip = none ∧
     (playerHit n3 (playerHit n2 (playerHit n1 s))).isGameOver = true ∧
     (playerHit n3 (playerHit n2 (playerHit n1 s))).gameOverEmitted = 1) := by
  have e1 : playerHit n1 s =
      { s with
        lives := 2
        playerVelocity := Vec3.zero
        playerShip :=
          some { ship with position := Vec3.zero, heading := 0, visible := false, enabled := false }
        playerInvincible := true
        playerRespawnTime := n1 } := by
    unfold playerHit
    dsimp only
    rw [hship, hlives]
    norm_num
  have e2 : playerHit n2 (playerHit n1 s) =
      { s with
        lives := 1
        playerVelocity := Vec3.zero
        playerShip :=
          some { ship with position := Vec3.zero, heading := 0, visible := false, enabled := false }
        playerInvincible := true
        playerRespawnTime := n2 } := by
    rw [e1]
    unfold playerHit
    dsimp only
    norm_num
  have e3 : playerHit n3 (playerHit n2 (playerHit n1 s)) =
      { s with
        lives := 0
        playerVelocity := Vec3.zero
        playerShip := none
        isGameOver := true
        lastAsteroidSpawnTime := ⊤
        asteroids := []
        bullets := []
        playerInvincible := true
        playerRespawnTime := n2
        gameOverEmitted := 1 } := by
    rw [e2]
    unfold playerHit endGame
    dsimp only
    rw [hgo, hem]
    norm_num
  refine ⟨?_, ?_, ?_⟩
  · rw [e1]; exact ⟨rfl, rfl, rfl, rfl, rfl⟩
  · rw [e2]; exact ⟨rfl, rfl⟩
  · rw [e3]; exact ⟨rfl, rfl, rfl, rfl⟩

/-- C5 witness: three hits from the freshly initialized state (3 lives)
end with a disposed ship, `isGameOver = true` and exactly one GameOver
emission. -/
theorem three_hits_dead_gameover_once_witness :
    ((playerHit 5 initState).lives = 2 ∧
     (playerHit 5 initState).playerVelocity = Vec3.zero ∧
     (playerHit 5 initState).playerShip =
        some { position := Vec3.zero, heading := 0, radius := 0.4, enabled := false, visible := false } ∧
     (playerHit 5 initState).playerInvincible = true ∧
     (playerHit 5 initState).playerRespawnTime = 5) ∧
    ((playerHit 6 (playerHit 5 initState)).lives = 1 ∧
     (playerHit 6 (playerHit 5 initState)).playerVelocity = Vec3.zero) ∧
    ((playerHit 7 (playerHit 6 (playerHit 5 initState))).lives = 0 ∧
     (playerHit 7 (playerHit 6 (playerHit 5 initState))).playerShip = none ∧
     (playerHit 7 (playerHit 6 (playerHit 5 initState))).isGameOver = true ∧
     (playerHit 7 (playerHit 6 (playerHit 5 initState))).gameOverEmitted = 1) :=
  three_hits_dead_gameover_once initState
    { position := Vec3.zero, heading := 0, radius := 0.4, enabled := true, visible := true }
    5 6 7 rfl rfl rfl rfl

/-- C1 (evaluation of the buggy code): `liveBullet`'s bounding sphere
strictly overlaps `overlapAsteroid`'s, both are live, yet
`checkCollisions` leaves the state unchanged — neither entity is
destroyed and the score does not change — because the outer-loop guard
`if (!bullet || !bullet.isDisposed()) continue;` skips every
non-disposed bullet. -/
theorem checkCollisions_skips_live_bullets :
    spheresIntersect liveBullet.position liveBullet.radius
        overlapAsteroid.position overlapAsteroid.radius = true ∧
    checkCollisions 0 overlapState = overlapState := by
  constructor
  · norm_num [spheresIntersect, Vec3.distSq, Vec3.lengthSq, liveBullet, overlapAsteroid,
      Vec3.zero, BULLET_RADIUS]
  · have hbp : bulletPhase overlapState.bullets overlapState.asteroids overlapState.score
        = ([liveBullet], [overlapAsteroid], 0) := by
      simp [overlapState, initState, bulletPhase, liveBullet]
    have hscan : playerScan (⟨20, 0, 0⟩ : Vec3) 1 [overlapAsteroid] = none := by
      rw [playerScan, playerScan]
      norm_num [overlapAsteroid, spheresIntersect, Vec3.distSq, Vec3.lengthSq, Vec3.zero]
    unfold checkCollisions
    rw [hbp]
    dsimp only [overlapState]
    norm_num [hscan, overlapState, initState]

/-- C4 counterexample: with `playerRespawnTime = 0` the invincibility
window ends at `invincibleUntil = 3000`, but a tick at exactly
`now = 3000` leaves the player Invincible: the code tests
`now > playerRespawnTime + RESPAWN_INVINCIBILITY_TIME` strictly, so the
claimed transition to Alive at `now = invincibleUntil` does not happen. -/
theorem tick_at_invincibleUntil_keeps_invincible :
    invincibleState.playerRespawnTime + RESPAWN_INVINCIBILITY_TIME = boundaryOracle.now ∧
    (updateGameLogic boundaryOracle invincibleState).playerInvincible = true := by
  constructor
  · decide
  · decide

/-- C4 (amended): `hit()` with lives remaining enters the Invincible
state with `playerRespawnTime = now`; a later tick keeps the player
Invincible for every `now ≤ invincibleUntil = playerRespawnTime +
respawnInvincibilityDuration` (in particular at `invincibleUntil - 1`
and at `invincibleUntil` itself), and returns the player to Alive
exactly when `now > invincibleUntil`. -/
theorem invincibility_window (s : GameState) (ship : Ship) (n now : ℤ)
    (hship : s.playerShip = some ship) (hl : 1 < s.lives) :
    (playerHit n s).playerInvincible = true ∧
    (playerHit n s).playerRespawnTime = n ∧
    (now ≤ n + RESPAWN_INVINCIBILITY_TIME →
      (invincibilityPhase now (playerHit n s)).playerInvincible = true) ∧
    (n + RESPAWN_INVINCIBILITY_TIME < now →
      (invincibilityPhase now (playerHit n s)).playerInvincible = false) := by
  have e : playerHit n s =
      { s with
        lives := s.lives - 1
        playerVelocity := Vec3.zero
        playerShip :=
          some { ship with position := Vec3.zero, heading := 0, visible := false, enabled := false }
        playerInvincible := true
        playerRespawnTime := n } := by
    unfold playerHit
    dsimp only
    rw [hship, if_pos (by omega : (0 : ℤ) < s.lives - 1)]
  rw [e]
  refine ⟨rfl, rfl, fun hle => ?_, fun hlt => ?_⟩
  · unfold invincibilityPhase
    rw [if_pos rfl]
    dsimp only
    rw [if_neg (by omega : ¬ n + RESPAWN_INVINCIBILITY_TIME < now)]
  · unfold invincibilityPhase
    rw [if_pos rfl]
    dsimp only
    rw [if_pos hlt]

/-- C4 (amended) witness: after a hit at time `0`, the player is still
Invincible at `now = 2999` and at `now = 3000`, and is Alive again at
`now = 3001`. -/
theorem invincibility_window_witness :
    (invincibilityPhase 2999 (playerHit 0 initState)).playerInvincible = true ∧
    (invincibilityPhase 3000 (playerHit 0 initState)).playerInvincible = true ∧
    (invincibilityPhase 3001 (playerHit 0 initState)).playerInvincible = false :=
  ⟨(invincibility_window initState
      { position := Vec3.zero, heading := 0, radius := 0.4, enabled := true, visible := true }
      0 2999 rfl (by decide)).2.2.1 (by decide),
   (invincibility_window initState
      { position := Vec3.zero, heading := 0, radius := 0.4, enabled := true, visible := true }
      0 3000 rfl (by decide)).2.2.1 (by decide),
   (invincibility_window initState
      { position := Vec3.zero, heading := 0, radius := 0.4, enabled := true, visible := true }
      0 3001 rfl (by decide)).2.2.2 (by decide)⟩

end Asteroids
